import Mathlib

/-!
Verification of the egui excerpt: a shallow embedding of
crates/egui/src/viewport.rs and crates/egui/src/widgets/plot/axis.rs.

Rust f32/f64 values are modelled as exact rationals; the one genuinely
real-valued operation (f32 sqrt in color_from_contrast) is modelled over
the reals. Strings produced by the tick formatter are modelled by the
inductive TickText, which records which format branch produced the text
and its numeric payload.
-/

namespace Egui

/-- epaint Pos2: a 2D screen position (f32 coordinates modelled as rationals). -/
structure Pos2 where
  x : ℚ
  y : ℚ
deriving DecidableEq

/-- epaint Vec2: a 2D size/vector (f32 coordinates modelled as rationals). -/
structure Vec2 where
  x : ℚ
  y : ℚ
deriving DecidableEq

/-- epaint ColorImage, used only as an opaque icon payload by ViewportBuilder. -/
structure ColorImage where
deriving DecidableEq

/-- egui Id: an opaque hash identifier (u64 in the source). -/
structure Id where
  raw : ℕ
deriving DecidableEq

/-- viewport.rs ViewportBuilder: a sparse description of a viewport.
Every field wrapped in Option expresses a change; None means no change
from the last builder. The id and title fields are not optional. -/
structure ViewportBuilder where
  id : Id
  title : String
  name : Option (String × String)
  position : Option (Option Pos2)
  inner_size : Option (Option Vec2)
  fullscreen : Option Bool
  maximized : Option Bool
  resizable : Option Bool
  transparent : Option Bool
  decorations : Option Bool
  icon : Option (Option ColorImage)
  active : Option Bool
  visible : Option Bool
  title_hidden : Option Bool
  titlebar_transparent : Option Bool
  fullsize_content_view : Option Bool
  min_inner_size : Option (Option Vec2)
  max_inner_size : Option (Option Vec2)
  drag_and_drop : Option Bool
  close_button : Option Bool
  minimize_button : Option Bool
  maximize_button : Option Bool
  hittest : Option Bool
deriving DecidableEq

/-- viewport.rs ViewportBuilder::new. -/
def ViewportBuilder.new (id : Id) : ViewportBuilder where
  id := id
  title := "Dummy egui viewport"
  name := none
  position := none
  inner_size := some (some ⟨300, 200⟩)
  fullscreen := none
  maximized := none
  resizable := some true
  transparent := some true
  decorations := some true
  icon := none
  active := some true
  visible := some true
  title_hidden := none
  titlebar_transparent := none
  fullsize_content_view := none
  min_inner_size := none
  max_inner_size := none
  drag_and_drop := some true
  close_button := some true
  minimize_button := some true
  maximize_button := some true
  hittest := some true

/-- viewport.rs ViewportBuilder::empty. -/
def ViewportBuilder.empty (id : Id) : ViewportBuilder where
  id := id
  title := "Dummy egui viewport"
  name := none
  position := none
  inner_size := none
  fullscreen := none
  maximized := none
  resizable := none
  transparent := none
  decorations := none
  icon := none
  active := none
  visible := none
  title_hidden := none
  titlebar_transparent := none
  fullsize_content_view := none
  min_inner_size := none
  max_inner_size := none
  drag_and_drop := none
  close_button := none
  minimize_button := none
  maximize_button := none
  hittest := none

/-- viewport.rs ViewportBuilder::with_title. -/
def ViewportBuilder.with_title (self : ViewportBuilder) (title : String) : ViewportBuilder :=
  { self with title := title }

/-- viewport.rs ViewportBuilder::with_decorations. -/
def ViewportBuilder.with_decorations (self : ViewportBuilder) (decorations : Bool) : ViewportBuilder :=
  { self with decorations := some decorations }

/-- viewport.rs ViewportBuilder::with_fullscreen. -/
def ViewportBuilder.with_fullscreen (self : ViewportBuilder) (fullscreen : Bool) : ViewportBuilder :=
  { self with fullscreen := some fullscreen }

/-- viewport.rs ViewportBuilder::with_maximized. -/
def ViewportBuilder.with_maximized (self : ViewportBuilder) (maximized : Bool) : ViewportBuilder :=
  { self with maximized := some maximized }

/-- viewport.rs ViewportBuilder::with_resizable. -/
def ViewportBuilder.with_resizable (self : ViewportBuilder) (resizable : Bool) : ViewportBuilder :=
  { self with resizable := some resizable }

/-- viewport.rs ViewportBuilder::with_transparent. -/
def ViewportBuilder.with_transparent (self : ViewportBuilder) (transparent : Bool) : ViewportBuilder :=
  { self with transparent := some transparent }

/-- viewport.rs ViewportBuilder::with_window_icon. -/
def ViewportBuilder.with_window_icon (self : ViewportBuilder) (icon : Option ColorImage) : ViewportBuilder :=
  { self with icon := some icon }

/-- viewport.rs ViewportBuilder::with_active. -/
def ViewportBuilder.with_active (self : ViewportBuilder) (active : Bool) : ViewportBuilder :=
  { self with active := some active }

/-- viewport.rs ViewportBuilder::with_visible. -/
def ViewportBuilder.with_visible (self : ViewportBuilder) (visible : Bool) : ViewportBuilder :=
  { self with visible := some visible }

/-- viewport.rs ViewportBuilder::with_title_hidden. -/
def ViewportBuilder.with_title_hidden (self : ViewportBuilder) (title_hidden : Bool) : ViewportBuilder :=
  { self with title_hidden := some title_hidden }

/-- viewport.rs ViewportBuilder::with_titlebar_transparent. -/
def ViewportBuilder.with_titlebar_transparent (self : ViewportBuilder) (value : Bool) : ViewportBuilder :=
  { self with titlebar_transparent := some value }

/-- viewport.rs ViewportBuilder::with_fullsize_content_view. -/
def ViewportBuilder.with_fullsize_content_view (self : ViewportBuilder) (value : Bool) : ViewportBuilder :=
  { self with fullsize_content_view := some value }

/-- viewport.rs ViewportBuilder::with_inner_size. -/
def ViewportBuilder.with_inner_size (self : ViewportBuilder) (value : Option Vec2) : ViewportBuilder :=
  { self with inner_size := some value }

/-- viewport.rs ViewportBuilder::with_min_inner_size. -/
def ViewportBuilder.with_min_inner_size (self : ViewportBuilder) (value : Option Vec2) : ViewportBuilder :=
  { self with min_inner_size := some value }

/-- viewport.rs ViewportBuilder::with_max_inner_size. -/
def ViewportBuilder.with_max_inner_size (self : ViewportBuilder) (value : Option Vec2) : ViewportBuilder :=
  { self with max_inner_size := some value }

/-- viewport.rs ViewportBuilder::with_close_button. -/
def ViewportBuilder.with_close_button (self : ViewportBuilder) (value : Bool) : ViewportBuilder :=
  { self with close_button := some value }

/-- viewport.rs ViewportBuilder::with_minimize_button. -/
def ViewportBuilder.with_minimize_button (self : ViewportBuilder) (value : Bool) : ViewportBuilder :=
  { self with minimize_button := some value }

/-- viewport.rs ViewportBuilder::with_maximize_button. -/
def ViewportBuilder.with_maximize_button (self : ViewportBuilder) (value : Bool) : ViewportBuilder :=
  { self with maximize_button := some value }

/-- viewport.rs ViewportBuilder::with_drag_and_drop. -/
def ViewportBuilder.with_drag_and_drop (self : ViewportBuilder) (value : Bool) : ViewportBuilder :=
  { self with drag_and_drop := some value }

/-- viewport.rs ViewportBuilder::with_position. -/
def ViewportBuilder.with_position (self : ViewportBuilder) (value : Option Pos2) : ViewportBuilder :=
  { self with position := some value }

/-- viewport.rs ViewportBuilder::with_name. -/
def ViewportBuilder.with_name (self : ViewportBuilder) (id inst : String) : ViewportBuilder :=
  { self with name := some (id, inst) }

/-- viewport.rs ViewportBuilder::with_hittest (deprecated in the source, but present). -/
def ViewportBuilder.with_hittest (self : ViewportBuilder) (value : Bool) : ViewportBuilder :=
  { self with hittest := some value }

/-- Modelled from the spec: per-field merge of one optional builder field.
A Some field of the newer (delta) builder means "apply this value"; a None
field means "no change from the previous state" (the base builder). -/
def mergeOpt {α : Type} (base delta : Option α) : Option α :=
  match delta with
  | none => base
  | some v => some v

/-- Modelled from the spec: the external viewport manager merge of a newer
(delta) ViewportBuilder into the previous (base) one. This operation lives
outside the excerpt; per the spec every Option-wrapped field with Some is
applied and every None field leaves the base unchanged. The non-optional
id and title fields always carry a value and are therefore always applied
from the delta. -/
def ViewportBuilder.merge (base delta : ViewportBuilder) : ViewportBuilder where
  id := delta.id
  title := delta.title
  name := mergeOpt base.name delta.name
  position := mergeOpt base.position delta.position
  inner_size := mergeOpt base.inner_size delta.inner_size
  fullscreen := mergeOpt base.fullscreen delta.fullscreen
  maximized := mergeOpt base.maximized delta.maximized
  resizable := mergeOpt base.resizable delta.resizable
  transparent := mergeOpt base.transparent delta.transparent
  decorations := mergeOpt base.decorations delta.decorations
  icon := mergeOpt base.icon delta.icon
  active := mergeOpt base.active delta.active
  visible := mergeOpt base.visible delta.visible
  title_hidden := mergeOpt base.title_hidden delta.title_hidden
  titlebar_transparent := mergeOpt base.titlebar_transparent delta.titlebar_transparent
  fullsize_content_view := mergeOpt base.fullsize_content_view delta.fullsize_content_view
  min_inner_size := mergeOpt base.min_inner_size delta.min_inner_size
  max_inner_size := mergeOpt base.max_inner_size delta.max_inner_size
  drag_and_drop := mergeOpt base.drag_and_drop delta.drag_and_drop
  close_button := mergeOpt base.close_button delta.close_button
  minimize_button := mergeOpt base.minimize_button delta.minimize_button
  maximize_button := mergeOpt base.maximize_button delta.maximize_button
  hittest := mergeOpt base.hittest delta.hittest

/-- True when every Option-wrapped ("optional") field of the builder is None;
the non-optional id and title fields are not inspected. -/
def ViewportBuilder.allOptionalNone (b : ViewportBuilder) : Bool :=
  b.name.isNone && b.position.isNone && b.inner_size.isNone && b.fullscreen.isNone &&
  b.maximized.isNone && b.resizable.isNone && b.transparent.isNone && b.decorations.isNone &&
  b.icon.isNone && b.active.isNone && b.visible.isNone && b.title_hidden.isNone &&
  b.titlebar_transparent.isNone && b.fullsize_content_view.isNone && b.min_inner_size.isNone &&
  b.max_inner_size.isNone && b.drag_and_drop.isNone && b.close_button.isNone &&
  b.minimize_button.isNone && b.maximize_button.isNone && b.hittest.isNone

/-- axis.rs X_AXIS: generic constant for the x-axis. -/
def X_AXIS : ℕ := 0

/-- axis.rs Y_AXIS: generic constant for the y-axis. -/
def Y_AXIS : ℕ := 1

/-- axis.rs Placement of an axis: Default is bottom for the x-axis and left
for the y-axis; Opposite is top for the x-axis and right for the y-axis. -/
inductive Placement where
  | Default
  | Opposite
deriving DecidableEq

/-- Model of the String returned by an axis tick formatter: records which
format branch produced the text and its numeric payload. The sciInt and
sciDec constructors stand for the two exponential format calls of the
default formatter, dec for its plain decimal format call, and empty for
the empty string (producible by a custom formatter; the three format
branches of the default formatter never yield an empty string). -/
inductive TickText where
  | empty
  | sciInt (n : ℤ)
  | sciDec (q : ℚ)
  | dec (q : ℚ)
deriving DecidableEq

/-- True exactly for the model of the empty string. -/
def TickText.isEmpty : TickText → Bool
  | .empty => true
  | _ => false

/-- True exactly for the two scientific-format constructors. -/
def TickText.isSci : TickText → Bool
  | .sciInt _ => true
  | .sciDec _ => true
  | _ => false

/-- Rust numeric cast f64 to isize: truncation toward zero. -/
def f64_as_isize (q : ℚ) : ℤ :=
  if 0 ≤ q then ⌊q⌋ else ⌈q⌉

/-- Modelled from the spec: emath round_to_decimals (used by the default
formatter but defined outside this excerpt); rounds a value to the given
number of decimal places. -/
def round_to_decimals (value : ℚ) (decimal_places : ℕ) : ℚ :=
  round (value * 10 ^ decimal_places) / 10 ^ decimal_places

/-- axis.rs AxisFormatterFn: tick value, max digits, currently shown range. -/
abbrev AxisFormatterFn := ℚ → ℕ → (ℚ × ℚ) → TickText

/-- axis.rs AxisHints::default_formatter. -/
def default_formatter (tick : ℚ) (max_digits : ℕ) (_range : ℚ × ℚ) : TickText :=
  if |tick| > 10 ^ max_digits then
    TickText.sciInt (f64_as_isize tick)
  else
    let tick_rounded := round_to_decimals tick max_digits
    if |tick| < (10 ^ max_digits : ℚ)⁻¹ ∧ tick ≠ 0 then
      TickText.sciDec tick_rounded
    else
      TickText.dec tick_rounded

/-- axis.rs AxisHints: axis configuration (label text, tick formatter,
maximum digit count, placement). The const generic AXIS parameter of the
source struct does not occur in any field and is passed to the functions
below as an explicit argument. -/
structure AxisHints where
  label : String
  formatter : AxisFormatterFn
  digits : ℕ
  placement : Placement

/-- axis.rs LINE_HEIGHT. -/
def LINE_HEIGHT : ℚ := 12

/-- axis.rs AxisHints::thickness. The unreachable arm for an invalid AXIS
value is modelled as 0. -/
def AxisHints.thickness (AXIS : ℕ) (self : AxisHints) : ℚ :=
  match AXIS with
  | 0 => if self.label.isEmpty then 1 * LINE_HEIGHT else 3 * LINE_HEIGHT
  | 1 =>
      if self.label.isEmpty then (self.digits : ℚ) * LINE_HEIGHT
      else ((self.digits : ℚ) + 1) * LINE_HEIGHT
  | _ => 0

/-- epaint Rect, as used by the axis widget. -/
structure Rect where
  min : Pos2
  max : Pos2
deriving DecidableEq

/-- epaint Rect::center_bottom. -/
def Rect.center_bottom (r : Rect) : Pos2 :=
  ⟨(r.min.x + r.max.x) / 2, r.max.y⟩

/-- epaint Rect::center_top. -/
def Rect.center_top (r : Rect) : Pos2 :=
  ⟨(r.min.x + r.max.x) / 2, r.min.y⟩

/-- epaint Rect::left_center. -/
def Rect.left_center (r : Rect) : Pos2 :=
  ⟨r.min.x, (r.min.y + r.max.y) / 2⟩

/-- epaint Rect::right_center. -/
def Rect.right_center (r : Rect) : Pos2 :=
  ⟨r.max.x, (r.min.y + r.max.y) / 2⟩

/-- Modelled from the spec: a GridMark is one tick, a (value, step size)
pair produced by a grid-spacing algorithm external to the excerpt. -/
structure GridMark where
  value : ℚ
  step_size : ℚ
deriving DecidableEq

/-- Modelled from the spec: a plot point in data space (plot module,
outside the excerpt). -/
structure PlotPoint where
  x : ℚ
  y : ℚ
deriving DecidableEq

/-- Modelled from the spec: the coordinate transform consumed by the axis
widget, exposing dpos_dvalue (the scale of screen position per data value,
an array indexed by the axis, modelled as a function) and
position_from_point (projection of a data point to screen space). -/
structure PlotTransform where
  dpos_dvalue : ℕ → ℚ
  position_from_point : PlotPoint → Pos2

/-- epaint Color32 restricted to its rgb channels (u8 each, modelled as ℕ). -/
structure Color32 where
  r : ℕ
  g : ℕ
  b : ℕ
deriving DecidableEq

/-- axis.rs AxisWidget. -/
structure AxisWidget where
  range : ℚ × ℚ
  hints : AxisHints
  rect : Rect
  transform : Option PlotTransform
  steps : List GridMark

/-- axis.rs AxisWidget::new. -/
def AxisWidget.new (hints : AxisHints) (rect : Rect) : AxisWidget where
  range := (0, 0)
  hints := hints
  rect := rect
  transform := none
  steps := []

/-- The per-frame Ui state consumed by AxisWidget::ui, abstracted to the
data the function actually reads: rect visibility, the laid-out text sizes
(galley sizes) of the label and of each tick text, and the visuals colors. -/
structure UiEnv where
  rectVisible : Bool
  override_text_color : Option Color32
  text_color : Color32
  labelSize : Vec2
  tickSize : TickText → Vec2
  extreme_bg_color : Color32
  fg_stroke_color : Color32

/-- Shapes emitted by AxisWidget::ui: one rotated axis-label text shape and
tick-label galley shapes. Angles are measured in turns of TAU, so the
source angle -TAU * 0.25 for the y-axis is -(1/4), i.e. -90 degrees. -/
inductive EmittedShape where
  | label (pos : Pos2) (angle : ℚ) (color : Color32)
  | tick (pos : Pos2) (color : Color32) (text : TickText)

/-- True exactly for tick-label shapes. -/
def EmittedShape.isTick : EmittedShape → Bool
  | .tick _ _ _ => true
  | _ => false

/-- The rotation angle of the axis label in AxisWidget::ui, in turns:
0 for the x-axis and -TAU * 0.25, i.e. -(1/4) turn, for the y-axis.
The unreachable arm is modelled as 0. -/
def labelAngle (AXIS : ℕ) : ℚ :=
  match AXIS with
  | 0 => 0
  | 1 => -(1 / 4)
  | _ => 0

/-- The axis-label text position selected by AxisWidget::ui depending on
placement and axis identity, given the label galley size. The unreachable
arms are modelled as the origin. -/
def labelTextPos (AXIS : ℕ) (placement : Placement) (rect : Rect) (size : Vec2) : Pos2 :=
  match placement with
  | Placement.Default =>
      match AXIS with
      | 0 =>
          let pos := rect.center_bottom
          ⟨pos.x - size.x / 2, pos.y - size.y * 1.25⟩
      | 1 =>
          let pos := rect.left_center
          ⟨pos.x, pos.y + size.x / 2⟩
      | _ => ⟨0, 0⟩
  | Placement.Opposite =>
      match AXIS with
      | 0 =>
          let pos := rect.center_top
          ⟨pos.x - size.x / 2, pos.y + size.y * 0.25⟩
      | 1 =>
          let pos := rect.right_center
          ⟨pos.x - size.y * 1.5, pos.y + size.x / 2⟩
      | _ => ⟨0, 0⟩

/-- axis.rs MIN_TEXT_SPACING (local constant of AxisWidget::ui). -/
def MIN_TEXT_SPACING : ℚ := 20

/-- axis.rs FULL_CONTRAST_SPACING (local constant of AxisWidget::ui). -/
def FULL_CONTRAST_SPACING : ℚ := 40

/-- Modelled from the spec: emath remap_clamp, linearly remapping x from
the range [x0, x1] to [y0, y1] with clamping at both ends (stated for
x0 ≤ x1, which holds at the only call site, 20 ≤ 40). -/
def remap_clamp (x x0 x1 y0 y1 : ℚ) : ℚ :=
  if x ≤ x0 then y0
  else if x1 ≤ x then y1
  else y0 + ((x - x0) / (x1 - x0)) * (y1 - y0)

/-- Modelled from the spec: emath lerp, linear interpolation from a to b
by t, over the reals since it is fed the real-valued contrast mix. -/
noncomputable def lerp (a b t : ℝ) : ℝ :=
  a + t * (b - a)

/-- Rust numeric cast f32 to u8 for non-NaN inputs: truncation toward zero
saturated to [0, 255]; on the nonnegative reals this is the floor capped
at 255, and every negative input maps to 0, which Int.toNat gives. -/
noncomputable def castU8 (x : ℝ) : ℕ :=
  min 255 (Int.toNat ⌊x⌋)

/-- axis.rs color_from_contrast: mixes the extreme background color toward
the foreground stroke color by 0.5 * sqrt contrast, per rgb channel. -/
noncomputable def color_from_contrast (env : UiEnv) (contrast : ℚ) : Color32 :=
  let bg := env.extreme_bg_color
  let fg := env.fg_stroke_color
  let mix : ℝ := 0.5 * Real.sqrt (contrast : ℝ)
  ⟨castU8 (lerp (bg.r : ℝ) (fg.r : ℝ) mix),
   castU8 (lerp (bg.g : ℝ) (fg.g : ℝ) mix),
   castU8 (lerp (bg.b : ℝ) (fg.b : ℝ) mix)⟩

/-- The tick-label text position selected by AxisWidget::ui for one tick,
given the tick galley size. The unreachable arm is modelled as the origin. -/
def tickPos (AXIS : ℕ) (placement : Placement) (rect : Rect) (t : PlotTransform)
    (value : ℚ) (size : Vec2) : Pos2 :=
  match AXIS with
  | 0 =>
      let y :=
        match placement with
        | Placement.Default => rect.min.y
        | Placement.Opposite => rect.max.y - size.y
      let projected := t.position_from_point ⟨value, 0⟩
      ⟨projected.x - size.x / 2, y⟩
  | 1 =>
      let x :=
        match placement with
        | Placement.Default => rect.max.x - size.x
        | Placement.Opposite => rect.min.x
      let projected := t.position_from_point ⟨0, value⟩
      ⟨x, projected.y - size.y / 2⟩
  | _ => ⟨0, 0⟩

/-- One iteration of the tick loop of AxisWidget::ui: none models a
continue (empty text, or spacing at most MIN_TEXT_SPACING), some models
the tick-label shape added to the painter. -/
noncomputable def tickShape (AXIS : ℕ) (w : AxisWidget) (env : UiEnv) (t : PlotTransform)
    (step : GridMark) : Option EmittedShape :=
  let text := w.hints.formatter step.value w.hints.digits w.range
  if text.isEmpty then none
  else
    let spacing_in_points := |t.dpos_dvalue AXIS * step.step_size|
    if spacing_in_points ≤ MIN_TEXT_SPACING then none
    else
      let line_weight := remap_clamp spacing_in_points MIN_TEXT_SPACING FULL_CONTRAST_SPACING 0 1
      let line_color := color_from_contrast env line_weight
      let size := env.tickSize text
      some (EmittedShape.tick (tickPos AXIS w.hints.placement w.rect t step.value size)
        line_color text)

/-- axis.rs AxisWidget::ui, as the list of shapes added to the painter:
nothing when the rect is not visible; the label shape alone when no
transform is present (early return before the tick loop); otherwise the
label shape followed by one shape per non-suppressed tick. -/
noncomputable def axisUi (AXIS : ℕ) (w : AxisWidget) (env : UiEnv) : List EmittedShape :=
  if env.rectVisible then
    let text_color := env.override_text_color.getD env.text_color
    let labelShape :=
      EmittedShape.label (labelTextPos AXIS w.hints.placement w.rect env.labelSize)
        (labelAngle AXIS) text_color
    match w.transform with
    | none => [labelShape]
    | some t => labelShape :: w.steps.filterMap (tickShape AXIS w env t)
  else []

/-- mergeOpt with an all-None delta field keeps the base field. -/
theorem mergeOpt_self_none {α : Type} (base : Option α) : mergeOpt base none = base := rfl

/-- mergeOpt with a None base field yields the delta field. -/
theorem mergeOpt_none_base {α : Type} (delta : Option α) : mergeOpt none delta = delta := by
  cases delta <;> rfl

/-- C6 counterexample: merging ViewportBuilder::empty() into a builder whose
title differs from the placeholder does not yield that builder back, because
the non-optional title (and id) fields of empty() carry concrete values that
the merge applies. -/
theorem empty_merge_not_identity :
    ViewportBuilder.merge ((ViewportBuilder.new ⟨0⟩).with_title "Hello")
        (ViewportBuilder.empty ⟨0⟩) ≠ (ViewportBuilder.new ⟨0⟩).with_title "Hello" := by
  intro h
  have hth := congrArg ViewportBuilder.title h
  simp [ViewportBuilder.merge, ViewportBuilder.empty, ViewportBuilder.new,
    ViewportBuilder.with_title] at hth

/-- C6 amended: every optional field of ViewportBuilder::empty() is None;
merging any builder b into empty() (b as the newer delta) yields b, and
merging empty() into b preserves every optional field of b but applies
the non-optional id and title of empty(), so it yields b itself only up to
those two fields. -/
theorem empty_merge_amended (i : Id) (b : ViewportBuilder) :
    (ViewportBuilder.empty i).allOptionalNone = true ∧
    ViewportBuilder.merge (ViewportBuilder.empty i) b = b ∧
    ViewportBuilder.merge b (ViewportBuilder.empty i) =
      { b with id := i, title := "Dummy egui viewport" } := by
  refine ⟨rfl, ?_, rfl⟩
  simp [ViewportBuilder.merge, ViewportBuilder.empty, mergeOpt_none_base]

/-- C8: every with_* setter of ViewportBuilder sets exactly the one field it
names (wrapped in Some for the optional ones) and leaves every other field
of the builder unchanged, expressed as a record update of that single field. -/
theorem setters_set_exactly_one_field (b : ViewportBuilder) (s nm inst : String)
    (flag : Bool) (sz : Option Vec2) (ic : Option ColorImage) (p : Option Pos2) :
    b.with_title s = { b with title := s } ∧
    b.with_decorations flag = { b with decorations := some flag } ∧
    b.with_fullscreen flag = { b with fullscreen := some flag } ∧
    b.with_maximized flag = { b with maximized := some flag } ∧
    b.with_resizable flag = { b with resizable := some flag } ∧
    b.with_transparent flag = { b with transparent := some flag } ∧
    b.with_window_icon ic = { b with icon := some ic } ∧
    b.with_active flag = { b with active := some flag } ∧
    b.with_visible flag = { b with visible := some flag } ∧
    b.with_title_hidden flag = { b with title_hidden := some flag } ∧
    b.with_titlebar_transparent flag = { b with titlebar_transparent := some flag } ∧
    b.with_fullsize_content_view flag = { b with fullsize_content_view := some flag } ∧
    b.with_inner_size sz = { b with inner_size := some sz } ∧
    b.with_min_inner_size sz = { b with min_inner_size := some sz } ∧
    b.with_max_inner_size sz = { b with max_inner_size := some sz } ∧
    b.with_close_button flag = { b with close_button := some flag } ∧
    b.with_minimize_button flag = { b with minimize_button := some flag } ∧
    b.with_maximize_button flag = { b with maximize_button := some flag } ∧
    b.with_drag_and_drop flag = { b with drag_and_drop := some flag } ∧
    b.with_position p = { b with position := some p } ∧
    b.with_name nm inst = { b with name := some (nm, inst) } ∧
    b.with_hittest flag = { b with hittest := some flag } :=
  ⟨rfl, rfl, rfl, rfl, rfl, rfl, rfl, rfl, rfl, rfl, rfl,
   rfl, rfl, rfl, rfl, rfl, rfl, rfl, rfl, rfl, rfl, rfl⟩

/-- C10: ViewportBuilder::new(id) is not all-None: the title is the
placeholder string, inner_size is Some(Some(300 x 200)), ten boolean
fields start as Some(true), and the remaining optional fields are None. -/
theorem new_builder_defaults (i : Id) :
    (ViewportBuilder.new i).id = i ∧
    (ViewportBuilder.new i).title = "Dummy egui viewport" ∧
    (ViewportBuilder.new i).name = none ∧
    (ViewportBuilder.new i).position = none ∧
    (ViewportBuilder.new i).inner_size = some (some ⟨300, 200⟩) ∧
    (ViewportBuilder.new i).fullscreen = none ∧
    (ViewportBuilder.new i).maximized = none ∧
    (ViewportBuilder.new i).resizable = some true ∧
    (ViewportBuilder.new i).transparent = some true ∧
    (ViewportBuilder.new i).decorations = some true ∧
    (ViewportBuilder.new i).icon = none ∧
    (ViewportBuilder.new i).active = some true ∧
    (ViewportBuilder.new i).visible = some true ∧
    (ViewportBuilder.new i).title_hidden = none ∧
    (ViewportBuilder.new i).titlebar_transparent = none ∧
    (ViewportBuilder.new i).fullsize_content_view = none ∧
    (ViewportBuilder.new i).min_inner_size = none ∧
    (ViewportBuilder.new i).max_inner_size = none ∧
    (ViewportBuilder.new i).drag_and_drop = some true ∧
    (ViewportBuilder.new i).close_button = some true ∧
    (ViewportBuilder.new i).minimize_button = some true ∧
    (ViewportBuilder.new i).maximize_button = some true ∧
    (ViewportBuilder.new i).hittest = some true :=
  ⟨rfl, rfl, rfl, rfl, rfl, rfl, rfl, rfl, rfl, rfl, rfl, rfl,
   rfl, rfl, rfl, rfl, rfl, rfl, rfl, rfl, rfl, rfl, rfl⟩

/-- C9: the reserved axis thickness is 12 for an x-axis with empty label and
36 (three line heights) otherwise; for a y-axis it is digits * 12 with an
empty label and (digits + 1) * 12 otherwise, growing linearly with the
configured digit count on the y-axis only. -/
theorem thickness_formula (h : AxisHints) :
    h.thickness X_AXIS = (if h.label.isEmpty then (12 : ℚ) else 36) ∧
    h.thickness Y_AXIS =
      (if h.label.isEmpty then (h.digits : ℚ) * 12 else ((h.digits : ℚ) + 1) * 12) := by
  constructor
  · simp only [AxisHints.thickness, X_AXIS, LINE_HEIGHT]
    split <;> norm_num
  · simp only [AxisHints.thickness, Y_AXIS, LINE_HEIGHT]

/-- C1: the default tick formatter yields a scientific-form string exactly
when the absolute value of the tick exceeds 10 ^ digits or is below
10 ^ (-digits) while the tick is nonzero, and otherwise yields the tick
rounded to digits decimals; in particular with digits = 5 the value
123.456789 is rounded to 123.45679, the value 1e9 is formatted in
scientific form, and the value 0 is formatted as the plain decimal 0. -/
theorem default_formatter_correct :
    (∀ (t : ℚ) (d : ℕ) (r : ℚ × ℚ),
        (default_formatter t d r).isSci = true ↔
          |t| > 10 ^ d ∨ (|t| < ((10 : ℚ) ^ d)⁻¹ ∧ t ≠ 0)) ∧
    (∀ (t : ℚ) (d : ℕ) (r : ℚ × ℚ),
        ¬(|t| > 10 ^ d ∨ (|t| < ((10 : ℚ) ^ d)⁻¹ ∧ t ≠ 0)) →
          default_formatter t d r = TickText.dec (round_to_decimals t d)) ∧
    default_formatter 123.456789 5 (0, 0) = TickText.dec 123.45679 ∧
    (default_formatter 1e9 5 (0, 0)).isSci = true ∧
    default_formatter 0 5 (0, 0) = TickText.dec 0 := by
  refine ⟨?_, ?_, ?_, ?_, ?_⟩
  · intro t d r
    unfold default_formatter
    by_cases h1 : |t| > 10 ^ d
    · simp [h1, TickText.isSci]
    · by_cases h2 : |t| < ((10 : ℚ) ^ d)⁻¹ ∧ t ≠ 0
      · simp [h1, h2, TickText.isSci]
      · simp [h1, h2, TickText.isSci]
  · intro t d r h
    rw [not_or] at h
    obtain ⟨h1, h2⟩ := h
    unfold default_formatter
    rw [if_neg h1, if_neg h2]
  · have h1 : ¬(|(123.456789 : ℚ)| > 10 ^ 5) := by norm_num [abs_le]
    have h2 : ¬(|(123.456789 : ℚ)| < ((10 : ℚ) ^ 5)⁻¹ ∧ (123.456789 : ℚ) ≠ 0) := by
      norm_num [le_abs]
    unfold default_formatter
    rw [if_neg h1, if_neg h2]
    have hr : round_to_decimals (123.456789 : ℚ) 5 = 123.45679 := by
      norm_num [round_to_decimals, round_eq]
    rw [hr]
  · have h1 : |(1e9 : ℚ)| > 10 ^ 5 := by norm_num [lt_abs]
    unfold default_formatter
    rw [if_pos h1]
    rfl
  · have h1 : ¬(|(0 : ℚ)| > 10 ^ 5) := by norm_num
    have h2 : ¬(|(0 : ℚ)| < ((10 : ℚ) ^ 5)⁻¹ ∧ (0 : ℚ) ≠ 0) := by norm_num
    unfold default_formatter
    rw [if_neg h1, if_neg h2]
    have hr : round_to_decimals (0 : ℚ) 5 = 0 := by
      norm_num [round_to_decimals, round_eq]
    rw [hr]

/-- C1 witness: the value 123.456789 with digits = 5 satisfies neither
scientific-form condition and is formatted as its rounding to 5 decimals. -/
theorem default_formatter_correct_witness :
    ¬(|(123.456789 : ℚ)| > 10 ^ 5 ∨
        (|(123.456789 : ℚ)| < ((10 : ℚ) ^ 5)⁻¹ ∧ (123.456789 : ℚ) ≠ 0)) ∧
    default_formatter 123.456789 5 (0, 0) = TickText.dec (round_to_decimals 123.456789 5) :=
  ⟨by norm_num [abs_le, le_abs],
   default_formatter_correct.2.1 123.456789 5 (0, 0) (by norm_num [abs_le, le_abs])⟩

/-- C7 counterexample: for the y-axis with rect [0, 100] x [0, 100] and a
label galley of size 30 x 12, the Opposite-placement label x coordinate
(100 - 1.5 * 12 = 82) is not the mirror across the rect midline of the
Default-placement label x coordinate (whose mirror of 0 is 100), so
swapping placement does not mirror the label position. -/
theorem placement_mirror_counterexample :
    ¬ ((labelTextPos Y_AXIS Placement.Opposite ⟨⟨0, 0⟩, ⟨100, 100⟩⟩ ⟨30, 12⟩).x =
        (Rect.mk ⟨0, 0⟩ ⟨100, 100⟩).min.x + (Rect.mk ⟨0, 0⟩ ⟨100, 100⟩).max.x -
          (labelTextPos Y_AXIS Placement.Default ⟨⟨0, 0⟩, ⟨100, 100⟩⟩ ⟨30, 12⟩).x) := by
  simp only [labelTextPos, Y_AXIS, Rect.left_center, Rect.right_center]
  norm_num

/-- C7 amended: swapping Default and Opposite placement never changes the
rotation angle (0 for the x-axis and -(1/4) turn, i.e. -90 degrees, for the
y-axis, by placement-independent definition). For the x-axis the label x is
unchanged and the label vertical center (anchor y plus half the label
height) is mirrored exactly across the rect horizontal midline. For the
y-axis the label y is unchanged and the anchor x moves from the left edge
to 1.5 label heights left of the right edge, which is a midline mirror of
the Default anchor only when the label height is 0. -/
theorem placement_swap_amended (r : Rect) (s : Vec2) :
    labelAngle X_AXIS = 0 ∧
    labelAngle Y_AXIS = -(1 / 4) ∧
    (labelTextPos X_AXIS Placement.Default r s).x =
      (labelTextPos X_AXIS Placement.Opposite r s).x ∧
    ((labelTextPos X_AXIS Placement.Default r s).y + s.y / 2) +
      ((labelTextPos X_AXIS Placement.Opposite r s).y + s.y / 2) = r.min.y + r.max.y ∧
    (labelTextPos Y_AXIS Placement.Default r s).y =
      (labelTextPos Y_AXIS Placement.Opposite r s).y ∧
    (labelTextPos Y_AXIS Placement.Default r s).x = r.min.x ∧
    (labelTextPos Y_AXIS Placement.Opposite r s).x = r.max.x - 1.5 * s.y := by
  refine ⟨rfl, rfl, ?_, ?_, ?_, ?_, ?_⟩
  · simp [labelTextPos, X_AXIS, Rect.center_bottom, Rect.center_top]
  · simp only [labelTextPos, X_AXIS, Rect.center_bottom, Rect.center_top]
    ring
  · simp [labelTextPos, Y_AXIS, Rect.left_center, Rect.right_center]
  · simp [labelTextPos, Y_AXIS, Rect.left_center]
  · simp only [labelTextPos, Y_AXIS, Rect.right_center]
    ring

/-- A concrete Ui environment used by the concrete-input witnesses. -/
def envA : UiEnv where
  rectVisible := true
  override_text_color := none
  text_color := ⟨255, 255, 255⟩
  labelSize := ⟨20, 12⟩
  tickSize := fun _ => ⟨10, 12⟩
  extreme_bg_color := ⟨0, 0, 0⟩
  fg_stroke_color := ⟨255, 255, 255⟩

/-- A concrete transform used by the concrete-input witnesses. -/
def transformA : PlotTransform where
  dpos_dvalue := fun _ => 30
  position_from_point := fun p => ⟨p.x, p.y⟩

/-- A concrete axis configuration used by the concrete-input witnesses. -/
def hintsA : AxisHints where
  label := "x"
  formatter := default_formatter
  digits := 5
  placement := Placement.Default

/-- A concrete rect used by the concrete-input witnesses. -/
def rectA : Rect := ⟨⟨0, 0⟩, ⟨100, 100⟩⟩

/-- A concrete axis widget without a transform (first frame). -/
def widgetNoTransform : AxisWidget := AxisWidget.new hintsA rectA

/-- A concrete axis widget with a transform and one tick. -/
def widgetA : AxisWidget where
  range := (0, 10)
  hints := hintsA
  rect := rectA
  transform := some transformA
  steps := [⟨1, 1⟩]

/-- A concrete tick used by the concrete-input witnesses. -/
def stepA : GridMark := ⟨1, 1⟩

/-- C5: when the widget carries no transform, AxisWidget::ui (on a visible
rect) emits exactly one shape, the axis-label text shape, and zero
tick-label shapes, returning early before the tick loop. -/
theorem no_transform_label_only (AXIS : ℕ) (w : AxisWidget) (env : UiEnv)
    (hv : env.rectVisible = true) (ht : w.transform = none) :
    axisUi AXIS w env =
      [EmittedShape.label (labelTextPos AXIS w.hints.placement w.rect env.labelSize)
        (labelAngle AXIS) (env.override_text_color.getD env.text_color)] ∧
    (axisUi AXIS w env).length = 1 ∧
    (axisUi AXIS w env).countP EmittedShape.isTick = 0 := by
  have hui : axisUi AXIS w env =
      [EmittedShape.label (labelTextPos AXIS w.hints.placement w.rect env.labelSize)
        (labelAngle AXIS) (env.override_text_color.getD env.text_color)] := by
    simp [axisUi, hv, ht]
  refine ⟨hui, ?_, ?_⟩
  · rw [hui]
    rfl
  · rw [hui]
    simp [List.countP_cons, EmittedShape.isTick]

/-- C5 witness: a concrete widget without a transform on a visible rect
emits exactly the label shape. -/
theorem no_transform_label_only_witness :
    (envA.rectVisible = true ∧ widgetNoTransform.transform = none) ∧
    (axisUi 0 widgetNoTransform envA =
      [EmittedShape.label
        (labelTextPos 0 widgetNoTransform.hints.placement widgetNoTransform.rect envA.labelSize)
        (labelAngle 0) (envA.override_text_color.getD envA.text_color)] ∧
     (axisUi 0 widgetNoTransform envA).length = 1 ∧
     (axisUi 0 widgetNoTransform envA).countP EmittedShape.isTick = 0) :=
  ⟨⟨rfl, rfl⟩, no_transform_label_only 0 widgetNoTransform envA rfl rfl⟩

/-- C2: with a transform present (on a visible rect), AxisWidget::ui emits
the label shape followed by one shape per tick of the step list that
survives the suppression test, and a tick produces a shape exactly when
its formatted text is non-empty and its on-screen spacing, the absolute
value of dpos_dvalue for the axis times the tick step size, strictly
exceeds MIN_TEXT_SPACING = 20; at spacing at most 20, and for empty
formatted text, no tick-label shape is emitted. -/
theorem tick_suppression (AXIS : ℕ) (w : AxisWidget) (env : UiEnv) (t : PlotTransform)
    (hv : env.rectVisible = true) (ht : w.transform = some t) :
    axisUi AXIS w env =
      EmittedShape.label (labelTextPos AXIS w.hints.placement w.rect env.labelSize)
        (labelAngle AXIS) (env.override_text_color.getD env.text_color) ::
        w.steps.filterMap (tickShape AXIS w env t) ∧
    ∀ step : GridMark,
      ((tickShape AXIS w env t step).isSome = true ↔
        (w.hints.formatter step.value w.hints.digits w.range).isEmpty = false ∧
        MIN_TEXT_SPACING < |t.dpos_dvalue AXIS * step.step_size|) := by
  constructor
  · simp [axisUi, hv, ht]
  · intro step
    unfold tickShape
    by_cases he : (w.hints.formatter step.value w.hints.digits w.range).isEmpty
    · simp [he]
    · by_cases hs : |t.dpos_dvalue AXIS * step.step_size| ≤ MIN_TEXT_SPACING
      · simp [he, hs]
      · simp [he, hs, not_le.mp hs]

/-- C2 witness: a concrete widget with a transform of scale 30 and a tick
of step size 1 (spacing 30 > 20, non-empty text) satisfies the emission
characterization. -/
theorem tick_suppression_witness :
    (envA.rectVisible = true ∧ widgetA.transform = some transformA) ∧
    axisUi 0 widgetA envA =
      EmittedShape.label (labelTextPos 0 widgetA.hints.placement widgetA.rect envA.labelSize)
        (labelAngle 0) (envA.override_text_color.getD envA.text_color) ::
        widgetA.steps.filterMap (tickShape 0 widgetA envA transformA) ∧
    ((tickShape 0 widgetA envA transformA stepA).isSome = true ↔
      (widgetA.hints.formatter stepA.value widgetA.hints.digits widgetA.range).isEmpty = false ∧
      MIN_TEXT_SPACING < |transformA.dpos_dvalue 0 * stepA.step_size|) :=
  ⟨⟨rfl, rfl⟩, (tick_suppression 0 widgetA envA transformA rfl rfl).1,
    (tick_suppression 0 widgetA envA transformA rfl rfl).2 stepA⟩

/-- At spacing at or above FULL_CONTRAST_SPACING the remap of the spacing
to the contrast range clamps to 1. -/
theorem remap_at_or_above (s : ℚ) (h : FULL_CONTRAST_SPACING ≤ s) :
    remap_clamp s MIN_TEXT_SPACING FULL_CONTRAST_SPACING 0 1 = 1 := by
  unfold remap_clamp MIN_TEXT_SPACING FULL_CONTRAST_SPACING at *
  rw [if_neg (by linarith), if_pos h]

/-- Strictly between the two spacing thresholds the remap of the spacing
to the contrast range is the unclamped linear value. -/
theorem remap_between (s : ℚ) (h1 : MIN_TEXT_SPACING < s) (h2 : s < FULL_CONTRAST_SPACING) :
    remap_clamp s MIN_TEXT_SPACING FULL_CONTRAST_SPACING 0 1 = (s - 20) / 20 := by
  unfold remap_clamp MIN_TEXT_SPACING FULL_CONTRAST_SPACING at *
  rw [if_neg (not_le.mpr h1), if_neg (not_le.mpr h2)]
  ring

/-- The u8 cast is monotone. -/
theorem castU8_mono {x y : ℝ} (h : x ≤ y) : castU8 x ≤ castU8 y := by
  unfold castU8
  exact min_le_min le_rfl (Int.toNat_le_toNat (Int.floor_le_floor h))

/-- The u8 cast is the identity on natural channel values up to 255. -/
theorem castU8_natCast (n : ℕ) (h : n ≤ 255) : castU8 (n : ℝ) = n := by
  unfold castU8
  rw [Int.floor_natCast, Int.toNat_natCast, min_eq_right h]

/-- Moving the interpolation parameter of lerp bg fg up within [0, 1]
never moves the u8-cast result away from the fg channel value. -/
theorem castU8_lerp_dist_anti (bg fg : ℕ) (hfg : fg ≤ 255) {m1 m2 : ℝ}
    (h12 : m1 ≤ m2) (h1 : m2 ≤ 1) :
    |((castU8 (lerp (bg : ℝ) (fg : ℝ) m2) : ℤ)) - (fg : ℤ)| ≤
      |((castU8 (lerp (bg : ℝ) (fg : ℝ) m1) : ℤ)) - (fg : ℤ)| := by
  rcases le_total (bg : ℝ) (fg : ℝ) with hbf | hfb
  · have hle : lerp (bg : ℝ) (fg : ℝ) m1 ≤ lerp (bg : ℝ) (fg : ℝ) m2 := by
      unfold lerp
      nlinarith [mul_le_mul_of_nonneg_right h12 (sub_nonneg.mpr hbf)]
    have hup : lerp (bg : ℝ) (fg : ℝ) m2 ≤ (fg : ℝ) := by
      unfold lerp
      nlinarith [mul_le_mul_of_nonneg_right h1 (sub_nonneg.mpr hbf)]
    have hc12 : castU8 (lerp (bg : ℝ) (fg : ℝ) m1) ≤ castU8 (lerp (bg : ℝ) (fg : ℝ) m2) :=
      castU8_mono hle
    have hc2 : castU8 (lerp (bg : ℝ) (fg : ℝ) m2) ≤ fg := by
      have := castU8_mono hup
      rwa [castU8_natCast fg hfg] at this
    have hc1 : castU8 (lerp (bg : ℝ) (fg : ℝ) m1) ≤ fg := le_trans hc12 hc2
    rw [abs_of_nonpos (sub_nonpos.mpr (by exact_mod_cast hc2)),
        abs_of_nonpos (sub_nonpos.mpr (by exact_mod_cast hc1))]
    have hz : (castU8 (lerp (bg : ℝ) (fg : ℝ) m1) : ℤ) ≤
        (castU8 (lerp (bg : ℝ) (fg : ℝ) m2) : ℤ) := by exact_mod_cast hc12
    linarith
  · have hle : lerp (bg : ℝ) (fg : ℝ) m2 ≤ lerp (bg : ℝ) (fg : ℝ) m1 := by
      unfold lerp
      nlinarith [mul_le_mul_of_nonpos_right h12 (sub_nonpos.mpr hfb)]
    have hup : (fg : ℝ) ≤ lerp (bg : ℝ) (fg : ℝ) m2 := by
      unfold lerp
      nlinarith [mul_le_mul_of_nonpos_right h1 (sub_nonpos.mpr hfb)]
    have hc12 : castU8 (lerp (bg : ℝ) (fg : ℝ) m2) ≤ castU8 (lerp (bg : ℝ) (fg : ℝ) m1) :=
      castU8_mono hle
    have hc2 : fg ≤ castU8 (lerp (bg : ℝ) (fg : ℝ) m2) := by
      have := castU8_mono hup
      rwa [castU8_natCast fg hfg] at this
    have hc1 : fg ≤ castU8 (lerp (bg : ℝ) (fg : ℝ) m1) := le_trans hc2 hc12
    rw [abs_of_nonneg (sub_nonneg.mpr (by exact_mod_cast hc2)),
        abs_of_nonneg (sub_nonneg.mpr (by exact_mod_cast hc1))]
    have hz : (castU8 (lerp (bg : ℝ) (fg : ℝ) m2) : ℤ) ≤
        (castU8 (lerp (bg : ℝ) (fg : ℝ) m1) : ℤ) := by exact_mod_cast hc12
    linarith

/-- C3: at spacing at least FULL_CONTRAST_SPACING = 40 screen units, the
tick-label color computed by the contrast function from the remapped
spacing equals the full-contrast color, the one computed at maximum
contrast weight 1. -/
theorem full_contrast_at_wide_spacing (env : UiEnv) (s : ℚ)
    (h : FULL_CONTRAST_SPACING ≤ s) :
    color_from_contrast env (remap_clamp s MIN_TEXT_SPACING FULL_CONTRAST_SPACING 0 1) =
      color_from_contrast env 1 := by
  rw [remap_at_or_above s h]

/-- C3 witness: spacing 50 is at least 40 and yields the weight-1 color. -/
theorem full_contrast_at_wide_spacing_witness :
    FULL_CONTRAST_SPACING ≤ (50 : ℚ) ∧
    color_from_contrast envA (remap_clamp 50 MIN_TEXT_SPACING FULL_CONTRAST_SPACING 0 1) =
      color_from_contrast envA 1 :=
  ⟨by norm_num [FULL_CONTRAST_SPACING],
   full_contrast_at_wide_spacing envA 50 (by norm_num [FULL_CONTRAST_SPACING])⟩

/-- C4: for two spacings strictly between the thresholds 20 and 40, the
contrast weight 0.5 * sqrt of the clamped remap is strictly larger for the
larger spacing, and each rgb channel of the contrast color (linear
interpolation from the extreme background color toward the foreground
stroke color by that weight, cast to u8) is at least as close to the
corresponding foreground channel for the larger spacing. -/
theorem contrast_monotone_in_spacing (env : UiEnv) (s1 s2 : ℚ)
    (hs1 : MIN_TEXT_SPACING < s1) (h12 : s1 < s2) (hs2 : s2 < FULL_CONTRAST_SPACING)
    (hfr : env.fg_stroke_color.r ≤ 255) (hfg : env.fg_stroke_color.g ≤ 255)
    (hfb : env.fg_stroke_color.b ≤ 255) :
    0.5 * Real.sqrt ((remap_clamp s1 MIN_TEXT_SPACING FULL_CONTRAST_SPACING 0 1 : ℚ) : ℝ) <
      0.5 * Real.sqrt ((remap_clamp s2 MIN_TEXT_SPACING FULL_CONTRAST_SPACING 0 1 : ℚ) : ℝ) ∧
    |((color_from_contrast env
          (remap_clamp s2 MIN_TEXT_SPACING FULL_CONTRAST_SPACING 0 1)).r : ℤ) -
        (env.fg_stroke_color.r : ℤ)| ≤
      |((color_from_contrast env
          (remap_clamp s1 MIN_TEXT_SPACING FULL_CONTRAST_SPACING 0 1)).r : ℤ) -
        (env.fg_stroke_color.r : ℤ)| ∧
    |((color_from_contrast env
          (remap_clamp s2 MIN_TEXT_SPACING FULL_CONTRAST_SPACING 0 1)).g : ℤ) -
        (env.fg_stroke_color.g : ℤ)| ≤
      |((color_from_contrast env
          (remap_clamp s1 MIN_TEXT_SPACING FULL_CONTRAST_SPACING 0 1)).g : ℤ) -
        (env.fg_stroke_color.g : ℤ)| ∧
    |((color_from_contrast env
          (remap_clamp s2 MIN_TEXT_SPACING FULL_CONTRAST_SPACING 0 1)).b : ℤ) -
        (env.fg_stroke_color.b : ℤ)| ≤
      |((color_from_contrast env
          (remap_clamp s1 MIN_TEXT_SPACING FULL_CONTRAST_SPACING 0 1)).b : ℤ) -
        (env.fg_stroke_color.b : ℤ)| := by
  have h1q : (20 : ℚ) < s1 := by simpa [MIN_TEXT_SPACING] using hs1
  have h2q : s2 < 40 := by simpa [FULL_CONTRAST_SPACING] using hs2
  have e1 := remap_between s1 hs1 (lt_trans h12 hs2)
  have e2 := remap_between s2 (lt_trans hs1 h12) hs2
  have r1pos : (0 : ℚ) ≤ (s1 - 20) / 20 := by
    apply div_nonneg (by linarith) (by norm_num)
  have r12 : (s1 - 20) / 20 < (s2 - 20) / 20 := by linarith
  have r2le1 : (s2 - 20) / 20 ≤ 1 := by linarith
  have hm12 : 0.5 * Real.sqrt (((s1 - 20) / 20 : ℚ) : ℝ) ≤
      0.5 * Real.sqrt (((s2 - 20) / 20 : ℚ) : ℝ) := by
    have := Real.sqrt_le_sqrt
      (show (((s1 - 20) / 20 : ℚ) : ℝ) ≤ (((s2 - 20) / 20 : ℚ) : ℝ) by exact_mod_cast r12.le)
    linarith
  have hm1 : 0.5 * Real.sqrt (((s2 - 20) / 20 : ℚ) : ℝ) ≤ 1 := by
    have hle : Real.sqrt (((s2 - 20) / 20 : ℚ) : ℝ) ≤ 1 :=
      Real.sqrt_le_one.mpr (by exact_mod_cast r2le1)
    linarith
  refine ⟨?_, ?_, ?_, ?_⟩
  · rw [e1, e2]
    have hlt : Real.sqrt (((s1 - 20) / 20 : ℚ) : ℝ) < Real.sqrt (((s2 - 20) / 20 : ℚ) : ℝ) := by
      apply Real.sqrt_lt_sqrt
      · exact_mod_cast r1pos
      · exact_mod_cast r12
    linarith
  · rw [e1, e2]
    simp only [color_from_contrast]
    exact castU8_lerp_dist_anti _ _ hfr hm12 hm1
  · rw [e1, e2]
    simp only [color_from_contrast]
    exact castU8_lerp_dist_anti _ _ hfg hm12 hm1
  · rw [e1, e2]
    simp only [color_from_contrast]
    exact castU8_lerp_dist_anti _ _ hfb hm12 hm1

/-- C4 witness: spacings 25 and 30 both lie strictly between 20 and 40 and
satisfy the strict weight ordering and the channel distance ordering for
the concrete environment. -/
theorem contrast_monotone_in_spacing_witness :
    (MIN_TEXT_SPACING < (25 : ℚ) ∧ (25 : ℚ) < 30 ∧ (30 : ℚ) < FULL_CONTRAST_SPACING ∧
      envA.fg_stroke_color.r ≤ 255 ∧ envA.fg_stroke_color.g ≤ 255 ∧
      envA.fg_stroke_color.b ≤ 255) ∧
    (0.5 * Real.sqrt ((remap_clamp 25 MIN_TEXT_SPACING FULL_CONTRAST_SPACING 0 1 : ℚ) : ℝ) <
      0.5 * Real.sqrt ((remap_clamp 30 MIN_TEXT_SPACING FULL_CONTRAST_SPACING 0 1 : ℚ) : ℝ) ∧
    |((color_from_contrast envA
          (remap_clamp 30 MIN_TEXT_SPACING FULL_CONTRAST_SPACING 0 1)).r : ℤ) -
        (envA.fg_stroke_color.r : ℤ)| ≤
      |((color_from_contrast envA
          (remap_clamp 25 MIN_TEXT_SPACING FULL_CONTRAST_SPACING 0 1)).r : ℤ) -
        (envA.fg_stroke_color.r : ℤ)| ∧
    |((color_from_contrast envA
          (remap_clamp 30 MIN_TEXT_SPACING FULL_CONTRAST_SPACING 0 1)).g : ℤ) -
        (envA.fg_stroke_color.g : ℤ)| ≤
      |((color_from_contrast envA
          (remap_clamp 25 MIN_TEXT_SPACING FULL_CONTRAST_SPACING 0 1)).g : ℤ) -
        (envA.fg_stroke_color.g : ℤ)| ∧
    |((color_from_contrast envA
          (remap_clamp 30 MIN_TEXT_SPACING FULL_CONTRAST_SPACING 0 1)).b : ℤ) -
        (envA.fg_stroke_color.b : ℤ)| ≤
      |((color_from_contrast envA
          (remap_clamp 25 MIN_TEXT_SPACING FULL_CONTRAST_SPACING 0 1)).b : ℤ) -
        (envA.fg_stroke_color.b : ℤ)|) :=
  ⟨⟨by norm_num [MIN_TEXT_SPACING], by norm_num, by norm_num [FULL_CONTRAST_SPACING],
    by decide, by decide, by decide⟩,
   contrast_monotone_in_spacing envA 25 30 (by norm_num [MIN_TEXT_SPACING]) (by norm_num)
    (by norm_num [FULL_CONTRAST_SPACING]) (by decide) (by decide) (by decide)⟩

end Egui
